import Mathlib

/-!
Verification development for the SpendTrackMaster statement-ingestion and
auto-categorization pipeline (`src/utils.py`, `src/database.py`,
`src/pages/1_Upload_Statements.py`).

The Python code is shallowly embedded:
* Python floats are modelled as rationals (`ℚ`); the arithmetic the claims
  are about is exact decimal arithmetic.
* Spreadsheet cell values are modelled by `CellValue` (`CellValue.none`
  covers both Python `None` and pandas NA).
* Library date parsing (`pd.to_datetime(...).date()`) is an external
  collaborator and is modelled as a parameter `toDate : CellValue → Option Date`
  (`Option.none` = the library raises).
* Python `float(x)` applied to a string is modelled by `parseDecimal`,
  a fixed-point decimal parser (sign, digits, one optional dot, surrounding
  whitespace); `Option.none` = `float` raises.  NaN does not exist in `ℚ`.
* String operations are implemented over `List Char` so that every
  definition evaluates by kernel reduction.  `str.lower()` is modelled on
  the ASCII letters (all keywords of the classifier are ASCII).
* A worksheet is a list of rows of cell values, as openpyxl presents it:
  every row is padded to the sheet's max column with `None` cells, and a
  row index past the last row yields nothing (`ws[6]? = none`).
* An apostrophe inside a keyword literal is written `Char.ofNat 39`.
-/

/-- Calendar date, the result of `pd.to_datetime(...).date()`. -/
structure Date where
  year : Int
  month : Nat
  day : Nat
deriving DecidableEq, Repr

/-- A spreadsheet / dataframe cell value.  `none` stands for Python `None`
and for pandas NA. -/
inductive CellValue where
  | none : CellValue
  | str : String → CellValue
  | num : ℚ → CellValue
  | date : Date → CellValue
deriving DecidableEq, Repr

/-- Whitespace for `str.strip()` (ASCII model). -/
def isWSChar (c : Char) : Bool := c.toNat ≤ 32

/-- Python `s.strip()`. -/
def trimS (s : String) : String :=
  ⟨((s.data.dropWhile isWSChar).reverse.dropWhile isWSChar).reverse⟩

/-- ASCII lower-casing of one character. -/
def lowerC (c : Char) : Char :=
  if 65 ≤ c.toNat ∧ c.toNat ≤ 90 then Char.ofNat (c.toNat + 32) else c

/-- Python `s.lower()` (ASCII model). -/
def lowerS (s : String) : String := ⟨s.data.map lowerC⟩

/-- List prefix test. -/
def isPrefixL : List Char → List Char → Bool
  | [], _ => true
  | _ :: _, [] => false
  | a :: as, b :: bs => a == b && isPrefixL as bs

/-- List infix test: `needle` occurs contiguously in the second list. -/
def infixL (needle : List Char) : List Char → Bool
  | [] => isPrefixL needle []
  | c :: cs => isPrefixL needle (c :: cs) || infixL needle cs

/-- Python `needle in haystack` on strings: substring containment. -/
def strContains (haystack needle : String) : Bool :=
  infixL needle.data haystack.data

/-- Python `s.startswith(p)`. -/
def startsWithS (s p : String) : Bool := isPrefixL p.data s.data

/-- Python `s.endswith(p)`. -/
def endsWithS (s p : String) : Bool := isPrefixL p.data.reverse s.data.reverse

/-- Python `s.replace(c, "")` for a one-character pattern `c`. -/
def removeChar (c : Char) (s : String) : String :=
  ⟨s.data.filter (fun a => a ≠ c)⟩

/-- The apostrophe character, used inside keyword literals. -/
def apos : Char := Char.ofNat 39

/-- Python truthiness of a cell value (`if amount`, `if row[2].value`). -/
def truthy : CellValue → Bool
  | CellValue.none => false
  | CellValue.str s => s ≠ ""
  | CellValue.num q => q ≠ 0
  | CellValue.date _ => true

/-- Python `str(x)` on a cell value.  Strings are the identity; the
renderings of the other constructors are stand-ins (no claim depends on
them). -/
def pyStr : CellValue → String
  | CellValue.none => "None"
  | CellValue.str s => s
  | CellValue.num _ => "num"
  | CellValue.date _ => "date"

/-- `pd.isna` on a cell value. -/
def pyIsna : CellValue → Bool
  | CellValue.none => true
  | _ => false

/-- Digit list to its numeric value (empty list allowed, value 0). -/
def digitsVal (l : List Char) : Nat :=
  l.foldl (fun a c => a * 10 + (c.toNat - 48)) 0

/-- Split a character list at the first dot: (before, after?). -/
def splitDot : List Char → List Char × Option (List Char)
  | [] => ([], Option.none)
  | c :: cs =>
      if c = '.' then ([], some cs)
      else
        let r := splitDot cs
        (c :: r.1, r.2)

/-- Unsigned fixed-point decimal: `"12"`, `"12.5"`, `"12."`, `".5"`.
A second dot, a non-digit, or an empty numeral fails. -/
def parseUnsigned (l : List Char) : Option ℚ :=
  match splitDot l with
  | (ds, Option.none) =>
      if ds ≠ [] && ds.all Char.isDigit then some (digitsVal ds) else Option.none
  | (is, some rest) =>
      match splitDot rest with
      | (fs, Option.none) =>
          if (is ≠ [] || fs ≠ []) && is.all Char.isDigit && fs.all Char.isDigit then
            some ((digitsVal is : ℚ) + (digitsVal fs : ℚ) / (10 ^ fs.length : ℚ))
          else Option.none
      | (_, some _) => Option.none

/-- Python `float(s)` for a string `s`, restricted to fixed-point decimals
(optional surrounding whitespace, optional sign).  `Option.none` models a
raised `ValueError`. -/
def parseDecimal (s : String) : Option ℚ :=
  match (trimS s).data with
  | [] => Option.none
  | c :: rest =>
      if c = '-' then (parseUnsigned rest).map (fun q => -q)
      else if c = '+' then parseUnsigned rest
      else parseUnsigned (c :: rest)

/-- Python `float(x)` on a cell value: numbers pass through, strings are
parsed, everything else (`None`/NA, dates) raises (`Option.none`). -/
def pyFloat : CellValue → Option ℚ
  | CellValue.num q => some q
  | CellValue.str s => parseDecimal s
  | _ => Option.none

-- `categorize_transaction` (src/utils.py lines 280-389): keyword lists as
-- written in the source, in source order.

def grocery_keywords : List String :=
  ["whole foods", "trader joe", "safeway", "kroger", "walmart grocery", "target grocery",
   "costco", ⟨['s', 'a', 'm', apos, 's', ' ', 'c', 'l', 'u', 'b']⟩,
   "grocery", "market", "fresh", "organic", "food lion", "harris teeter"]

def eating_out_keywords : List String :=
  ["restaurant", "cafe", "coffee", "starbucks",
   ⟨['m', 'c', 'd', 'o', 'n', 'a', 'l', 'd', apos, 's']⟩, "chipotle",
   "burger", "pizza", "taco", "dining", "kitchen", "doordash", "uber eats",
   "grubhub", "takeout", "delivery"]

def household_keywords : List String :=
  ["amazon", "target", "walmart", "best buy", "home depot", "lowes",
   "bed bath", "ikea", "costco", "household", "furniture", "appliance",
   "cleaning", "supplies"]

def gas_keywords : List String :=
  ["shell", "exxon", "chevron", "bp", "mobil", "sunoco", "gas station",
   "fuel", "gasoline", "petrol"]

def utility_keywords : List String :=
  ["electric", "gas company", "water", "internet", "phone",
   "cable", "utility", "power", "energy", "verizon", "comcast",
   "at&t", "spectrum"]

def health_keywords : List String :=
  ["cvs", "walgreens", "pharmacy", "doctor", "medical", "hospital",
   "dentist", "health", "prescription", "medicine", "clinic"]

def travel_keywords : List String :=
  ["airline", "flight", "hotel", "airbnb", "uber", "lyft", "taxi",
   "rental car", "airport", "booking", "expedia", "travel"]

def bills_keywords : List String :=
  ["insurance", "loan", "credit card", "mortgage", "rent",
   "subscription", "membership", "payment", "autopay"]

def fun_keywords : List String :=
  ["netflix", "hulu", "spotify", "apple music", "cinema",
   "theater", "movie", "concert", "game", "entertainment",
   "amazon prime", "youtube", "disney"]

def gift_keywords : List String :=
  ["gift", "present", "flowers", "hallmark", "card"]

/-- `categorize_transaction` (src/utils.py 280-389): lower-case the
description, then ten sequential keyword loops with early return, finally
`"Uncategorized"`.  Each Python `for`/`if keyword in description_lower:
return` loop is one `List.any` test. -/
def categorize_transaction (description : String) : String :=
  let dl := lowerS description
  if grocery_keywords.any (fun k => strContains dl k) then "Groceries"
  else if eating_out_keywords.any (fun k => strContains dl k) then "Eating out"
  else if household_keywords.any (fun k => strContains dl k) then "Household Goods"
  else if gas_keywords.any (fun k => strContains dl k) then "Gas"
  else if utility_keywords.any (fun k => strContains dl k) then "Utilities"
  else if health_keywords.any (fun k => strContains dl k) then "Health"
  else if travel_keywords.any (fun k => strContains dl k) then "Travel"
  else if bills_keywords.any (fun k => strContains dl k) then "Bills"
  else if fun_keywords.any (fun k => strContains dl k) then "Fun / Misc"
  else if gift_keywords.any (fun k => strContains dl k) then "Gifts"
  else "Uncategorized"

/-- The spec's CategoryRule (§3): the keyword groups in the fixed priority
order groceries → eating-out → household → gas → utilities → health →
travel → bills → fun/misc → gifts. -/
def ruleGroups : List (List String × String) :=
  [(grocery_keywords, "Groceries"),
   (eating_out_keywords, "Eating out"),
   (household_keywords, "Household Goods"),
   (gas_keywords, "Gas"),
   (utility_keywords, "Utilities"),
   (health_keywords, "Health"),
   (travel_keywords, "Travel"),
   (bills_keywords, "Bills"),
   (fun_keywords, "Fun / Misc"),
   (gift_keywords, "Gifts")]

/-- First-match-wins evaluation of an ordered rule-group list, as the spec
words it (§4.4). -/
def firstMatch (dl : String) : List (List String × String) → Option String
  | [] => Option.none
  | (ks, c) :: rest =>
      if ks.any (fun k => strContains dl k) then some c else firstMatch dl rest

/-- The classifier as the spec describes it: case-fold, first matching
group in priority order, default `"Uncategorized"`. -/
def classifierSpec (description : String) : String :=
  (firstMatch (lowerS description) ruleGroups).getD "Uncategorized"

/-- `calculate_prorated_amount` dictionary (src/utils.py 13-18). -/
def frequency_multipliers : List (String × ℚ) :=
  [("monthly", 1), ("quarterly", 1/3), ("semi-annually", 1/6), ("annually", 1/12)]

/-- `calculate_prorated_amount` (src/utils.py 11-20):
`amount * frequency_multipliers.get(frequency, 1.0)`. -/
def calculate_prorated_amount (amount : ℚ) (frequency : String) : ℚ :=
  amount * ((frequency_multipliers.lookup frequency).getD 1)

/-- `validate_file_format` (src/utils.py 391-394). -/
def validate_file_format (filename : String) : Bool :=
  [".csv", ".xlsx", ".xls"].any (fun ext => endsWithS (lowerS filename) ext)

/-- `clean_amount_string` (src/utils.py 420-435): drop `$` and `,`, strip,
turn `(x)` into `-x`, then `float`; any failure yields `0.0`. -/
def clean_amount_string (amount_str : CellValue) : ℚ :=
  if pyIsna amount_str then 0
  else
    let cleaned := trimS (removeChar ',' (removeChar '$' (pyStr amount_str)))
    let cleaned2 :=
      if startsWithS cleaned "(" && endsWithS cleaned ")" then
        ⟨'-' :: (cleaned.data.drop 1).dropLast⟩
      else cleaned
    (parseDecimal cleaned2).getD 0

/-- A `CanonicalTransaction`: the dictionary built by the extractors
(src/utils.py 81-90, 196-205, 265-274). -/
structure Transaction where
  transaction_date : Date
  post_date : Option Date
  description : String
  category : String
  type : String
  amount : ℚ
  memo : String
  source_file : String
deriving DecidableEq, Repr

/-- Header standardization (src/utils.py 30, 125):
`.str.strip().str.lower().str.replace(' ', '_')`. -/
def normalizeCol (s : String) : String :=
  ⟨(lowerS (trimS s)).data.map (fun c => if c = ' ' then '_' else c)⟩

/-- `row.get(name, default)` on a dataframe row: the row is the list of
cell values parallel to the (normalized) column list. -/
def rowGet (cols : List String) (row : List CellValue) (name : String)
    (dflt : CellValue) : CellValue :=
  match cols.findIdx? (fun c => c == name) with
  | some i => row.getD i CellValue.none
  | Option.none => dflt

/-- Python `.strip()` on a raw cell value: defined for strings, an
`AttributeError` (modelled as `Except.error`) on anything non-string. -/
def stripCell : CellValue → Except String String
  | CellValue.str s => Except.ok (trimS s)
  | _ => Except.error "AttributeError: strip"

/-- Transaction-date resolution of the standard extractor
(src/utils.py 39-52, 224-237): `transaction_date` column, else `date`,
else the first column whose name contains `date`, else today; any parse
failure falls back to today (the surrounding `try`/`except`). -/
def resolveTransDate (toDate : CellValue → Option Date) (today : Date)
    (cols : List String) (row : List CellValue) : Date :=
  if cols.contains "transaction_date" then
    (toDate (rowGet cols row "transaction_date" CellValue.none)).getD today
  else if cols.contains "date" then
    (toDate (rowGet cols row "date" CellValue.none)).getD today
  else
    match cols.find? (fun c => strContains c "date") with
    | some c => (toDate (rowGet cols row c CellValue.none)).getD today
    | Option.none => today

/-- One row of the standard extractor (the identical row bodies of
`parse_bank_csv`, src/utils.py 33-92, and `_parse_standard_excel`,
src/utils.py 218-276).  `Except.ok Option.none` = row skipped,
`Except.ok (some t)` = transaction emitted, `Export.error` = an exception
escapes the row (`.strip()` on a non-string cell) and aborts the file.
A pandas NA amount cell is routed through the defaulting branch; `ℚ` has
no NaN (see the header comment). -/
def parseStandardRow (toDate : CellValue → Option Date) (today : Date)
    (cols : List String) (filename : String) (row : List CellValue) :
    Except String (Option Transaction) :=
  let descCell := rowGet cols row "description" (CellValue.str "")
  if pyIsna descCell then Except.ok Option.none
  else
    match stripCell descCell with
    | Except.error e => Except.error e
    | Except.ok d0 =>
      if d0 = "" then Except.ok Option.none
      else
        let trans_date := resolveTransDate toDate today cols row
        let postCell := rowGet cols row "post_date" CellValue.none
        let post_date :=
          if cols.contains "post_date" && !(pyIsna postCell) then toDate postCell
          else Option.none
        let amount := ((pyFloat (rowGet cols row "amount" (CellValue.num 0))).getD 0)
        match stripCell (rowGet cols row "type" (CellValue.str "")) with
        | Except.error e => Except.error e
        | Except.ok t0 =>
          let transaction_type :=
            if t0 = "" then (if 0 < amount then "Credit" else "Debit") else t0
          let description := trimS (pyStr (rowGet cols row "description" (CellValue.str "")))
          Except.ok (some
            { transaction_date := trans_date
              post_date := post_date
              description := description
              category := categorize_transaction description
              type := transaction_type
              amount := amount
              memo := trimS (pyStr (rowGet cols row "memo" (CellValue.str "")))
              source_file := filename })

/-- The standard extractor row loop: first escaping exception aborts the
file, skipped rows emit nothing, order preserved. -/
def parseStandardRows (toDate : CellValue → Option Date) (today : Date)
    (cols : List String) (filename : String) :
    List (List CellValue) → Except String (List Transaction)
  | [] => Except.ok []
  | r :: rs =>
      match parseStandardRow toDate today cols filename r with
      | Except.error e => Except.error e
      | Except.ok Option.none => parseStandardRows toDate today cols filename rs
      | Except.ok (some t) =>
          (parseStandardRows toDate today cols filename rs).map (fun l => t :: l)

/-- `parse_bank_csv` (src/utils.py 22-97): normalize the header, run the
standard row loop; an escaping exception is re-raised as a `ValueError`
with a prefixed message. -/
def parse_bank_csv (toDate : CellValue → Option Date) (today : Date)
    (header : List String) (rows : List (List CellValue)) (filename : String) :
    Except String (List Transaction) :=
  match parseStandardRows toDate today (header.map normalizeCol) filename rows with
  | Except.error e => Except.error ("Error parsing CSV file: " ++ e)
  | Except.ok ts => Except.ok ts

/-- `_parse_standard_excel` (src/utils.py 214-278): same row loop over an
already-normalized dataframe. -/
def _parse_standard_excel (toDate : CellValue → Option Date) (today : Date)
    (cols : List String) (rows : List (List CellValue)) (filename : String) :
    Except String (List Transaction) :=
  parseStandardRows toDate today cols filename rows

/-- The Amex category mapping (src/utils.py 138-153), in source
(= dict insertion) order. -/
def category_mapping : List (String × String) :=
  [("airline", "Travel"), ("hotel", "Travel"), ("travel", "Travel"),
   ("mobile telecom", "Utilities"), ("internet services", "Utilities"),
   ("education", "Business School"),
   ("merchandise & supplies", "Household Goods"),
   ("groceries", "Groceries"), ("restaurants", "Eating out"),
   ("gas stations", "Gas"), ("health & medical", "Health"),
   ("entertainment", "Fun / Misc"), ("gifts", "Gifts"),
   ("fees & adjustments", "Bills")]

/-- The mapping loop of `_parse_amex_excel` (src/utils.py 182-187): first
`amex_key` whose lower-casing is a substring of the lower-cased bank
category wins. -/
def mapAmexCategory (amex_category : String) : String :=
  match category_mapping.find? (fun p => strContains (lowerS amex_category) (lowerS p.1)) with
  | some p => p.2
  | Option.none => "Uncategorized"

/-- One row of `_parse_amex_excel` (src/utils.py 156-210).  `Option.none` =
row skipped (blank description, unparseable date, truthy unparseable
amount, or a row too short for the fixed column positions — every one of
these is a silent `continue`, the last via the enclosing
`except: continue`). -/
def _parse_amex_row (toDate : CellValue → Option Date) (filename : String)
    (row : List CellValue) : Option Transaction :=
  match row[0]?, row[2]?, row[3]?, row[11]? with
  | some date_cell, some descCell, some amountCell, some catCell =>
      let description := if truthy descCell then trimS (pyStr descCell) else ""
      if description = "" then Option.none
      else
        match toDate date_cell with
        | Option.none => Option.none
        | some trans_date =>
          match (if truthy amountCell then pyFloat amountCell else some 0) with
          | Option.none => Option.none
          | some amount =>
            let amex_category := if truthy catCell then trimS (pyStr catCell) else ""
            let category0 :=
              if amex_category ≠ "" then mapAmexCategory amex_category else "Uncategorized"
            let category :=
              if category0 = "Uncategorized" then categorize_transaction description
              else category0
            some
              { transaction_date := trans_date
                post_date := Option.none
                description := description
                category := category
                type := if amount < 0 then "Debit" else "Credit"
                amount := amount
                memo := amex_category
                source_file := filename }
  | _, _, _, _ => Option.none

/-- `_parse_amex_excel` (src/utils.py 133-212): rows from row 8 (1-based)
onward. -/
def _parse_amex_excel (toDate : CellValue → Option Date)
    (ws : List (List CellValue)) (filename : String) : List Transaction :=
  (ws.drop 7).filterMap (_parse_amex_row toDate filename)

/-- Python `str(row7_values)` restricted to what the detection substring
test can see: each string cell appears between apostrophes, cells joined
by `", "` inside brackets.  Non-string renderings are stand-ins (they
cannot contain `Description`). -/
def pyReprCell : CellValue → List Char
  | CellValue.none => "None".data
  | CellValue.str s => apos :: (s.data ++ [apos])
  | CellValue.num _ => "num".data
  | CellValue.date _ => "date".data

/-- Serialization of the probe row, `str([cell.value for cell in ws[7]])`. -/
def pyStrRow (row : List CellValue) : String :=
  ⟨'[' :: (((row.map pyReprCell).intersperse ", ".data).flatten ++ [']'])⟩

/-- The Amex-format probe of `parse_bank_excel` (src/utils.py 110-117):
row 7 (1-based) must have at least 4 cells, first cell the exact string
`"Date"`, and serialized content containing `"Description"`; a missing
row 7 (the `except: pass`) detects as standard. -/
def detectAmexRow7 (ws : List (List CellValue)) : Bool :=
  match ws[6]? with
  | Option.none => false
  | some row7 =>
      decide (4 ≤ row7.length) &&
      (match row7[0]? with
       | some (CellValue.str s) => s == "Date"
       | _ => false) &&
      strContains (pyStrRow row7) "Description"

/-- The two layouts `parse_bank_excel` routes between. -/
inductive Layout where
  | amex : Layout
  | standard : Layout
deriving DecidableEq, Repr

/-- The routing decision of `parse_bank_excel` (src/utils.py 119-126). -/
def parse_bank_excel_layout (ws : List (List CellValue)) : Layout :=
  if detectAmexRow7 ws then Layout.amex else Layout.standard

/-- `parse_bank_excel` (src/utils.py 99-131).  On the standard branch the
worksheet is re-read as a header-row table: first row = header (as pandas
`read_excel` presents it), remaining rows = data. -/
def parse_bank_excel (toDate : CellValue → Option Date) (today : Date)
    (ws : List (List CellValue)) (filename : String) :
    Except String (List Transaction) :=
  if detectAmexRow7 ws then Except.ok (_parse_amex_excel toDate ws filename)
  else
    let cols := ((ws.headD []).map (fun c => normalizeCol (pyStr c)))
    match parseStandardRows toDate today cols filename (ws.drop 1) with
    | Except.error e => Except.error ("Error parsing Excel file: " ++ e)
    | Except.ok ts => Except.ok ts

/-- A row of the `travel_budget` table as written by src/database.py. -/
structure TravelBudgetRow where
  transaction_date : Date
  description : String
  amount : ℚ
  type : String
deriving DecidableEq, Repr

/-- `add_travel_expense` (src/database.py 264-281): the inserted row.
The `date=None → datetime.now().date()` default is modelled by passing the
effective date explicitly. -/
def add_travel_expense (description : String) (amount : ℚ) (d : Date) :
    TravelBudgetRow :=
  { transaction_date := d
    description := description
    amount := -|amount|
    type := "expense" }

/-- An uploaded file as the coordinator sees it: its name, and what the
parser would return for its bytes (`Except.error` = the parse call
raises). -/
structure UploadedFile where
  name : String
  parseOutcome : Except String (List Transaction)

/-- One entry of `processing_results`
(src/pages/1_Upload_Statements.py 38-104). -/
structure FileResult where
  filename : String
  status : String
  transactions : Nat
  error : Option String
deriving DecidableEq, Repr

/-- The per-file body of the upload loop
(src/pages/1_Upload_Statements.py 32-104), with the database
`insert_transactions` as an abstract collaborator returning the inserted
count. -/
def processFile (insert : List Transaction → Nat) (f : UploadedFile) : FileResult :=
  if ¬ validate_file_format f.name then
    { filename := f.name, status := "Failed", transactions := 0,
      error := some "Unsupported file format" }
  else
    match f.parseOutcome with
    | Except.error e =>
        { filename := f.name, status := "Failed", transactions := 0, error := some e }
    | Except.ok txs =>
        if txs.isEmpty then
          { filename := f.name, status := "Warning", transactions := 0,
            error := some "No valid transactions found" }
        else
          let inserted := insert txs
          if 0 < inserted then
            { filename := f.name, status := "Success", transactions := inserted,
              error := Option.none }
          else
            { filename := f.name, status := "Failed", transactions := 0,
              error := some "Database insertion failed" }

/-- The upload loop over the batch: one result per file, in order. -/
def processFiles (insert : List Transaction → Nat) (files : List UploadedFile) :
    List FileResult :=
  files.map (processFile insert)

/-- A concrete instantiation of the date-parsing collaborator, for
witnesses: a datetime cell parses to its own date, the ISO string
`"2025-01-15"` parses, everything else fails. -/
def toDateDemo : CellValue → Option Date
  | CellValue.date d => some d
  | CellValue.str s => if s = "2025-01-15" then some ⟨2025, 1, 15⟩ else Option.none
  | _ => Option.none

/-- The detection signature exactly as the claim words it: row 7 has first
cell the exact string `"Date"` and serialized content containing
`"Description"` — no condition on the number of cells. -/
def claimAmexSignature (ws : List (List CellValue)) : Bool :=
  match ws[6]? with
  | Option.none => false
  | some row7 =>
      (match row7[0]? with
       | some (CellValue.str s) => s == "Date"
       | _ => false) &&
      strContains (pyStrRow row7) "Description"

example : parseDecimal "-45.67" = some (-(4567/100) : ℚ) := by
  simp [parseDecimal, parseUnsigned, trimS, splitDot, digitsVal, isWSChar,
    List.dropWhile, List.foldl]
  norm_num
example : categorize_transaction "Amazon.com*Shopping" = "Household Goods" := by decide
example : calculate_prorated_amount 12 "quarterly" = 4 := by
  simp [calculate_prorated_amount, frequency_multipliers, List.lookup, beq_iff_eq]
  norm_num
example : validate_file_format "a.XLSX" = true := by decide
example : clean_amount_string (CellValue.str "($1,234.56)") = -(123456/100) := by
  simp [clean_amount_string, pyIsna, pyStr, removeChar, trimS, startsWithS, endsWithS,
    isPrefixL, parseDecimal, parseUnsigned, splitDot, digitsVal, isWSChar,
    List.dropWhile, List.foldl, List.filter, List.dropLast]
  norm_num

/-- C10: `add_travel_expense` always stores `-abs(amount)` and type
`"expense"`: the persisted travel-budget expense row has a non-positive
amount whatever the sign of the caller's argument. -/
theorem add_travel_expense_nonpositive (descr : String) (a : ℚ) (d : Date) :
    (add_travel_expense descr a d).amount = -|a| ∧
    (add_travel_expense descr a d).amount ≤ 0 ∧
    (add_travel_expense descr a d).type = "expense" := by
  refine ⟨rfl, ?_, rfl⟩
  simp [add_travel_expense, neg_nonpos]

/-- C8: proration returns `A` for `monthly`, `A/3` for `quarterly`, `A/6`
for `semi-annually`, `A/12` for `annually`, and `A` (multiplier 1.0, no
error) for any other frequency string. -/
theorem calculate_prorated_amount_spec (A : ℚ) (f : String)
    (hf : f ∉ ["monthly", "quarterly", "semi-annually", "annually"]) :
    calculate_prorated_amount A "monthly" = A ∧
    calculate_prorated_amount A "quarterly" = A / 3 ∧
    calculate_prorated_amount A "semi-annually" = A / 6 ∧
    calculate_prorated_amount A "annually" = A / 12 ∧
    calculate_prorated_amount A f = A := by
  simp only [List.mem_cons, List.not_mem_nil, or_false, not_or] at hf
  obtain ⟨h1, h2, h3, h4⟩ := hf
  have b1 : (f == "monthly") = false := beq_eq_false_iff_ne.mpr h1
  have b2 : (f == "quarterly") = false := beq_eq_false_iff_ne.mpr h2
  have b3 : (f == "semi-annually") = false := beq_eq_false_iff_ne.mpr h3
  have b4 : (f == "annually") = false := beq_eq_false_iff_ne.mpr h4
  refine ⟨?_, ?_, ?_, ?_, ?_⟩ <;>
    simp [calculate_prorated_amount, frequency_multipliers, List.lookup,
      beq_iff_eq, b1, b2, b3, b4] <;> ring

/-- C8 witness: concrete proration of 12 at each frequency and at the
unknown frequency `"weekly"`. -/
theorem calculate_prorated_amount_spec_witness :
    ("weekly" : String) ∉ ["monthly", "quarterly", "semi-annually", "annually"] ∧
    (calculate_prorated_amount 12 "monthly" = 12 ∧
     calculate_prorated_amount 12 "quarterly" = 12 / 3 ∧
     calculate_prorated_amount 12 "semi-annually" = 12 / 6 ∧
     calculate_prorated_amount 12 "annually" = 12 / 12 ∧
     calculate_prorated_amount 12 "weekly" = 12) :=
  ⟨by decide, calculate_prorated_amount_spec 12 "weekly" (by decide)⟩

/-- C2 counterexample: a two-column worksheet whose row 7 is
`["Date", "Description"]` satisfies the claim's signature (first cell
exactly `"Date"`, serialization contains `"Description"`) yet the code
routes it to the standard extractor, because the code also requires at
least 4 cells in row 7. -/
theorem detection_claim_counterexample :
    claimAmexSignature
        [[CellValue.none, CellValue.none], [CellValue.none, CellValue.none],
         [CellValue.none, CellValue.none], [CellValue.none, CellValue.none],
         [CellValue.none, CellValue.none], [CellValue.none, CellValue.none],
         [CellValue.str "Date", CellValue.str "Description"]] = true ∧
    parse_bank_excel_layout
        [[CellValue.none, CellValue.none], [CellValue.none, CellValue.none],
         [CellValue.none, CellValue.none], [CellValue.none, CellValue.none],
         [CellValue.none, CellValue.none], [CellValue.none, CellValue.none],
         [CellValue.str "Date", CellValue.str "Description"]] = Layout.standard := by
  constructor <;> decide

/-- C2 amended: the worksheet is routed to the Amex extractor iff its row 7
(1-based) exists, has at least 4 cells, has first cell exactly the string
`"Date"`, and has serialized content containing `"Description"`; in every
other case (including a missing row 7) it is routed to the standard
extractor, and detection is a total function (never an error). -/
theorem parse_bank_excel_amex_routing (ws : List (List CellValue)) :
    parse_bank_excel_layout ws = Layout.amex ↔
      ∃ row7, ws[6]? = some row7 ∧ 4 ≤ row7.length ∧
        row7[0]? = some (CellValue.str "Date") ∧
        strContains (pyStrRow row7) "Description" = true := by
  unfold parse_bank_excel_layout detectAmexRow7
  cases hws : ws[6]? with
  | none => simp
  | some row7 =>
      cases h0 : row7[0]? with
      | none => simp [h0]
      | some c =>
          cases c <;>
            simp [h0, Bool.and_eq_true, decide_eq_true_eq, beq_iff_eq, and_assoc]

/-- C1: the classifier lower-cases the description and evaluates the
keyword groups with first-match-wins semantics in the fixed priority order
groceries → eating-out → household → gas → utilities → health → travel →
bills → fun/misc → gifts, returning `"Uncategorized"` when no keyword of
any list occurs as a substring; in particular a description matching two
lists gets the earlier (higher-priority) list's category. -/
theorem categorize_transaction_first_match (d : String) :
    categorize_transaction d = classifierSpec d := by
  simp only [categorize_transaction, classifierSpec, ruleGroups, firstMatch]
  cases h1 : grocery_keywords.any (fun k => strContains (lowerS d) k)
  rotate_left
  · simp only [if_true, Option.getD_some]
  simp only [Bool.false_eq_true, if_false]
  cases h2 : eating_out_keywords.any (fun k => strContains (lowerS d) k)
  rotate_left
  · simp only [if_true, Option.getD_some]
  simp only [Bool.false_eq_true, if_false]
  cases h3 : household_keywords.any (fun k => strContains (lowerS d) k)
  rotate_left
  · simp only [if_true, Option.getD_some]
  simp only [Bool.false_eq_true, if_false]
  cases h4 : gas_keywords.any (fun k => strContains (lowerS d) k)
  rotate_left
  · simp only [if_true, Option.getD_some]
  simp only [Bool.false_eq_true, if_false]
  cases h5 : utility_keywords.any (fun k => strContains (lowerS d) k)
  rotate_left
  · simp only [if_true, Option.getD_some]
  simp only [Bool.false_eq_true, if_false]
  cases h6 : health_keywords.any (fun k => strContains (lowerS d) k)
  rotate_left
  · simp only [if_true, Option.getD_some]
  simp only [Bool.false_eq_true, if_false]
  cases h7 : travel_keywords.any (fun k => strContains (lowerS d) k)
  rotate_left
  · simp only [if_true, Option.getD_some]
  simp only [Bool.false_eq_true, if_false]
  cases h8 : bills_keywords.any (fun k => strContains (lowerS d) k)
  rotate_left
  · simp only [if_true, Option.getD_some]
  simp only [Bool.false_eq_true, if_false]
  cases h9 : fun_keywords.any (fun k => strContains (lowerS d) k)
  rotate_left
  · simp only [if_true, Option.getD_some]
  simp only [Bool.false_eq_true, if_false]
  cases h10 : gift_keywords.any (fun k => strContains (lowerS d) k)
  rotate_left
  · simp only [if_true, Option.getD_some]
  simp only [Bool.false_eq_true, if_false]
  simp only [Option.getD_none]

/-- Helper: a file with a valid extension whose parse returns a list never
carries the extension-failure error text. -/
theorem processFile_validated_no_ext_error (insert : List Transaction → Nat)
    (f : UploadedFile) (l : List Transaction)
    (hv : validate_file_format f.name = true)
    (hp : f.parseOutcome = Except.ok l) :
    (processFile insert f).error ≠ some "Unsupported file format" := by
  by_cases hl : l.isEmpty
  · simp [processFile, hv, hp, hl]
  · by_cases hi : 0 < insert l
    · simp [processFile, hv, hp, hl, hi]
    · simp [processFile, hv, hp, hl, hi]

/-- C9: a file whose name fails extension validation gets outcome `Failed`
with error text `"Unsupported file format"` and count 0; the outcome is
independent of what extraction would have returned (no extraction is
attempted); and in a 3-file batch where only the middle file has an
unsupported extension, the outer files' outcomes are exactly their
stand-alone outcomes and exactly one outcome of the batch carries the
extension error. -/
theorem upload_unsupported_extension_isolated
    (insert : List Transaction → Nat) (f : UploadedFile)
    (hf : validate_file_format f.name = false) :
    processFile insert f =
      { filename := f.name, status := "Failed", transactions := 0,
        error := some "Unsupported file format" } ∧
    (∀ po, processFile insert { name := f.name, parseOutcome := po } =
        processFile insert f) ∧
    (∀ (f1 f3 : UploadedFile) (l1 l3 : List Transaction),
        validate_file_format f1.name = true →
        validate_file_format f3.name = true →
        f1.parseOutcome = Except.ok l1 → f3.parseOutcome = Except.ok l3 →
        processFiles insert [f1, f, f3] =
          [processFile insert f1, processFile insert f, processFile insert f3] ∧
        ((processFiles insert [f1, f, f3]).filter
            (fun r => r.error == some "Unsupported file format")).length = 1) := by
  have hfail : processFile insert f =
      { filename := f.name, status := "Failed", transactions := 0,
        error := some "Unsupported file format" } := by
    simp [processFile, hf]
  refine ⟨hfail, ?_, ?_⟩
  · intro po
    simp [processFile, hf]
  · intro f1 f3 l1 l3 hv1 hv3 hp1 hp3
    refine ⟨rfl, ?_⟩
    have e1 := processFile_validated_no_ext_error insert f1 l1 hv1 hp1
    have e3 := processFile_validated_no_ext_error insert f3 l3 hv3 hp3
    have b1 : ((processFile insert f1).error == some "Unsupported file format") = false :=
      beq_eq_false_iff_ne.mpr e1
    have b3 : ((processFile insert f3).error == some "Unsupported file format") = false :=
      beq_eq_false_iff_ne.mpr e3
    have bf : ((processFile insert f).error == some "Unsupported file format") = true := by
      rw [hfail]
      simp
    simp [processFiles, List.filter, b1, b3, bf]

/-- C9 witness: a concrete 3-file batch (`a.csv`, `a.pdf`, `b.xlsx`) with
the database collaborator counting every handed-over row. -/
theorem upload_unsupported_extension_isolated_witness :
    validate_file_format "a.pdf" = false ∧
    ((processFiles List.length
        [{ name := "a.csv", parseOutcome := Except.ok [] },
         { name := "a.pdf", parseOutcome := Except.ok [] },
         { name := "b.xlsx", parseOutcome := Except.ok [] }]).filter
      (fun r => r.error == some "Unsupported file format")).length = 1 :=
  ⟨by decide,
   ((upload_unsupported_extension_isolated List.length
        { name := "a.pdf", parseOutcome := Except.ok [] } (by decide)).2.2
      { name := "a.csv", parseOutcome := Except.ok [] }
      { name := "b.xlsx", parseOutcome := Except.ok [] }
      [] [] (by decide) (by decide) rfl rfl).2⟩

/-- Helper: every transaction the standard row step emits has a non-empty
description. -/
theorem parseStandardRow_some_description (toDate : CellValue → Option Date)
    (today : Date) (cols : List String) (fn : String) (row : List CellValue)
    (t : Transaction)
    (h : parseStandardRow toDate today cols fn row = Except.ok (some t)) :
    t.description ≠ "" := by
  unfold parseStandardRow at h
  cases hdc : rowGet cols row "description" (CellValue.str "")
  case none => rw [hdc] at h; simp [pyIsna] at h
  case num q => rw [hdc] at h; simp [pyIsna, stripCell] at h
  case date dd => rw [hdc] at h; simp [pyIsna, stripCell] at h
  case str s =>
    rw [hdc] at h
    by_cases hse : trimS s = ""
    · simp [pyIsna, stripCell, hse] at h
    · simp [pyIsna, stripCell, hse] at h
      cases hts : rowGet cols row "type" (CellValue.str "") <;>
        rw [hts] at h <;> simp at h
      subst h
      simpa [pyStr] using hse

/-- Helper: every transaction the Amex row step emits has a non-empty
description. -/
theorem _parse_amex_row_some_description (toDate : CellValue → Option Date)
    (fn : String) (row : List CellValue) (t : Transaction)
    (h : _parse_amex_row toDate fn row = some t) : t.description ≠ "" := by
  unfold _parse_amex_row at h
  cases h0 : row[0]? with
  | none => rw [h0] at h; simp at h
  | some dc =>
    rw [h0] at h
    cases h2 : row[2]? with
    | none => rw [h2] at h; simp at h
    | some descC =>
      rw [h2] at h
      cases h3 : row[3]? with
      | none => rw [h3] at h; simp at h
      | some ac =>
        rw [h3] at h
        cases h11 : row[11]? with
        | none => rw [h11] at h; simp at h
        | some cc =>
          rw [h11] at h
          by_cases hdesc : (if truthy descC then trimS (pyStr descC) else "") = ""
          · simp [hdesc] at h
          · simp only [hdesc, if_neg, if_false] at h
            cases hd : toDate dc with
            | none => rw [hd] at h; simp at h
            | some d =>
              rw [hd] at h
              cases ha : (if truthy ac then pyFloat ac else some 0) with
              | none => rw [ha] at h; simp at h
              | some q =>
                rw [ha] at h
                simp at h
                subst h
                simpa using hdesc

/-- C5: rows whose description cell is blank, missing or whitespace-only
are dropped by both extractors (no record emitted), and consequently every
transaction either extractor produces has a non-empty description. -/
theorem blank_description_rows_dropped :
    (∀ (toDate : CellValue → Option Date) (today : Date) (cols : List String)
        (fn : String) (row : List CellValue),
        (pyIsna (rowGet cols row "description" (CellValue.str "")) = true ∨
          (∃ s, rowGet cols row "description" (CellValue.str "") = CellValue.str s ∧
            trimS s = "")) →
        parseStandardRow toDate today cols fn row = Except.ok Option.none) ∧
    (∀ (toDate : CellValue → Option Date) (fn : String) (row : List CellValue)
        (descC : CellValue),
        row[2]? = some descC →
        (if truthy descC then trimS (pyStr descC) else "") = "" →
        _parse_amex_row toDate fn row = Option.none) ∧
    (∀ (toDate : CellValue → Option Date) (today : Date) (cols : List String)
        (fn : String) (rows : List (List CellValue)) (ts : List Transaction),
        parseStandardRows toDate today cols fn rows = Except.ok ts →
        ∀ t ∈ ts, t.description ≠ "") ∧
    (∀ (toDate : CellValue → Option Date) (ws : List (List CellValue))
        (fn : String) (t : Transaction),
        t ∈ _parse_amex_excel toDate ws fn → t.description ≠ "") := by
  refine ⟨?_, ?_, ?_, ?_⟩
  · intro toDate today cols fn row hblank
    unfold parseStandardRow
    rcases hblank with hna | ⟨s, hs, hse⟩
    · simp [hna]
    · rw [hs]
      simp [pyIsna, stripCell, hse]
  · intro toDate fn row descC h2 hblank
    unfold _parse_amex_row
    cases h0 : row[0]? with
    | none => rfl
    | some dc =>
      rw [h2]
      cases h3 : row[3]? with
      | none => rfl
      | some ac =>
        cases h11 : row[11]? with
        | none => rfl
        | some cc => simp [hblank]
  · intro toDate today cols fn rows
    induction rows with
    | nil =>
        intro ts h t ht
        unfold parseStandardRows at h
        simp at h
        subst h
        simp at ht
    | cons r rs ih =>
        intro ts h t ht
        unfold parseStandardRows at h
        cases hr : parseStandardRow toDate today cols fn r with
        | error e => rw [hr] at h; simp at h
        | ok o =>
          rw [hr] at h
          cases o with
          | none => exact ih ts h t ht
          | some t0 =>
              cases hrest : parseStandardRows toDate today cols fn rs with
              | error e => rw [hrest] at h; simp [Except.map] at h
              | ok l =>
                  rw [hrest] at h
                  simp [Except.map] at h
                  subst h
                  rcases List.mem_cons.mp ht with rfl | hmem
                  · exact parseStandardRow_some_description toDate today cols fn r t hr
                  · exact ih l hrest t hmem
  · intro toDate ws fn t ht
    simp only [_parse_amex_excel, List.mem_filterMap] at ht
    obtain ⟨r, _, hr⟩ := ht
    exact _parse_amex_row_some_description toDate fn r t hr

/-- C5 witness: a whitespace-only description row is skipped by the
standard extractor, and a worksheet whose row 8 has an empty description
cell yields no Amex rows. -/
theorem blank_description_rows_dropped_witness :
    (pyIsna (rowGet ["description"] [CellValue.str "   "] "description" (CellValue.str "")) = true ∨
      (∃ s, rowGet ["description"] [CellValue.str "   "] "description" (CellValue.str "") =
          CellValue.str s ∧ trimS s = "")) ∧
    parseStandardRow toDateDemo ⟨2025, 1, 15⟩ ["description"] "f.csv" [CellValue.str "   "] =
      Except.ok Option.none ∧
    _parse_amex_row toDateDemo "f.xlsx"
      [CellValue.date ⟨2025, 1, 15⟩, CellValue.none, CellValue.str " ", CellValue.num 5,
       CellValue.none, CellValue.none, CellValue.none, CellValue.none, CellValue.none,
       CellValue.none, CellValue.none, CellValue.none] = Option.none :=
  ⟨Or.inr ⟨"   ", rfl, by decide⟩,
   blank_description_rows_dropped.1 toDateDemo ⟨2025, 1, 15⟩ ["description"] "f.csv"
     [CellValue.str "   "] (Or.inr ⟨"   ", rfl, by decide⟩),
   blank_description_rows_dropped.2.1 toDateDemo "f.xlsx" _ (CellValue.str " ")
     (by decide) (by decide)⟩

/-- C4: in the standard extractor a row with a non-blank description whose
amount cell is a string that `float` cannot parse is still emitted, with
amount 0.0, rather than dropped. -/
theorem standard_row_unparseable_amount_defaults
    (toDate : CellValue → Option Date) (today : Date) (cols : List String)
    (fn : String) (row : List CellValue) (ds ts s : String)
    (hdesc : rowGet cols row "description" (CellValue.str "") = CellValue.str ds)
    (hne : trimS ds ≠ "")
    (htype : rowGet cols row "type" (CellValue.str "") = CellValue.str ts)
    (hamt : rowGet cols row "amount" (CellValue.num 0) = CellValue.str s)
    (hbad : parseDecimal s = Option.none) :
    ∃ t, parseStandardRow toDate today cols fn row = Except.ok (some t) ∧
      t.amount = 0 := by
  unfold parseStandardRow
  rw [hdesc, htype, hamt]
  simp [pyIsna, stripCell, hne, pyFloat, hbad]

/-- C4 witness: the row `description = "Store"`, `amount = "abc"`,
`type = "Sale"` is emitted with amount 0. -/
theorem standard_row_unparseable_amount_defaults_witness :
    parseDecimal "abc" = Option.none ∧
    (∃ t, parseStandardRow toDateDemo ⟨2025, 1, 15⟩ ["description", "amount", "type"]
        "f.csv" [CellValue.str "Store", CellValue.str "abc", CellValue.str "Sale"] =
        Except.ok (some t) ∧ t.amount = 0) :=
  ⟨by decide,
   standard_row_unparseable_amount_defaults toDateDemo ⟨2025, 1, 15⟩
     ["description", "amount", "type"] "f.csv"
     [CellValue.str "Store", CellValue.str "abc", CellValue.str "Sale"]
     "Store" "Sale" "abc" (by decide) (by decide) (by decide) (by decide) (by decide)⟩

/-- C3 counterexample: a worksheet whose row 8 has an empty (`None`) amount
cell — a value `float` cannot parse — is not skipped by the Amex extractor:
the row is emitted with the default amount 0.0, contradicting the claim
that any unparseable amount drops the row. -/
theorem amex_empty_amount_not_skipped :
    pyFloat CellValue.none = Option.none ∧
    _parse_amex_excel toDateDemo
        ((List.replicate 7 (List.replicate 12 CellValue.none)) ++
         [[CellValue.date ⟨2025, 1, 15⟩, CellValue.none, CellValue.str "zzz", CellValue.none,
           CellValue.none, CellValue.none, CellValue.none, CellValue.none, CellValue.none,
           CellValue.none, CellValue.none, CellValue.none]]) "f.xlsx" =
      [{ transaction_date := ⟨2025, 1, 15⟩, post_date := Option.none, description := "zzz",
         category := "Uncategorized", type := "Credit", amount := 0, memo := "",
         source_file := "f.xlsx" }] := by
  constructor
  · rfl
  · decide

/-- C3 amended: from row 8 onward the Amex extractor skips a row whose date
cell does not parse, and skips a row whose amount cell is truthy but does
not parse as a number; a falsy amount cell (empty cell, empty string, or 0)
is not skipped — the row is emitted with amount defaulted to 0.0.  Either
way no exception escapes and the only effect of a skipped row is a shorter
result list. -/
theorem amex_row_skip_rules
    (toDate : CellValue → Option Date) (fn : String) (row : List CellValue)
    (dc descC ac cc : CellValue)
    (h0 : row[0]? = some dc) (h2 : row[2]? = some descC)
    (h3 : row[3]? = some ac) (h11 : row[11]? = some cc) :
    (toDate dc = Option.none → _parse_amex_row toDate fn row = Option.none) ∧
    (truthy ac = true → pyFloat ac = Option.none →
      _parse_amex_row toDate fn row = Option.none) ∧
    (truthy ac = false →
      ∀ d, toDate dc = some d →
      (if truthy descC then trimS (pyStr descC) else "") ≠ "" →
      ∃ t, _parse_amex_row toDate fn row = some t ∧ t.amount = 0) := by
  unfold _parse_amex_row
  rw [h0, h2, h3, h11]
  refine ⟨?_, ?_, ?_⟩
  · intro hd
    by_cases hb : (if truthy descC then trimS (pyStr descC) else "") = ""
    · simp [hb]
    · simp [hb, hd]
  · intro hta hpf
    by_cases hb : (if truthy descC then trimS (pyStr descC) else "") = ""
    · simp [hb]
    · cases hd : toDate dc with
      | none => simp [hb, hd]
      | some d => simp [hb, hd, hta, hpf]
  · intro hta d hd hb
    simp [hb, hd, hta]

/-- C3 witness for the amended theorem: a truthy unparseable amount cell
(`"abc"`) drops the row; an unparseable date cell drops the row. -/
theorem amex_row_skip_rules_witness :
    truthy (CellValue.str "abc") = true ∧
    pyFloat (CellValue.str "abc") = Option.none ∧
    _parse_amex_row toDateDemo "f.xlsx"
      [CellValue.date ⟨2025, 1, 15⟩, CellValue.none, CellValue.str "zzz",
       CellValue.str "abc", CellValue.none, CellValue.none, CellValue.none,
       CellValue.none, CellValue.none, CellValue.none, CellValue.none,
       CellValue.none] = Option.none ∧
    toDateDemo (CellValue.str "not a date") = Option.none ∧
    _parse_amex_row toDateDemo "f.xlsx"
      [CellValue.str "not a date", CellValue.none, CellValue.str "zzz",
       CellValue.num 5, CellValue.none, CellValue.none, CellValue.none,
       CellValue.none, CellValue.none, CellValue.none, CellValue.none,
       CellValue.none] = Option.none :=
  ⟨by decide, by decide,
   (amex_row_skip_rules toDateDemo "f.xlsx" _
       (CellValue.date ⟨2025, 1, 15⟩) (CellValue.str "zzz") (CellValue.str "abc")
       CellValue.none rfl rfl rfl rfl).2.1 (by decide) (by decide),
   by decide,
   (amex_row_skip_rules toDateDemo "f.xlsx" _
       (CellValue.str "not a date") (CellValue.str "zzz") (CellValue.num 5)
       CellValue.none rfl rfl rfl rfl).1 (by decide)⟩

/-- C6: the well-formed standard CSV with the given header and single data
row yields exactly one transaction: date from the `Transaction Date`
column, description verbatim, category recomputed by the classifier
(so the file's own `Shopping` label is discarded), type `Sale` passed
through, amount -45.67. -/
theorem csv_roundtrip_single_row (toDate : CellValue → Option Date)
    (today : Date) (d : Date)
    (h : toDate (CellValue.str "2025-01-15") = some d) :
    parse_bank_csv toDate today
        ["Transaction Date", "Description", "Category", "Type", "Amount", "Memo"]
        [[CellValue.str "2025-01-15", CellValue.str "Amazon.com*Shopping",
          CellValue.str "Shopping", CellValue.str "Sale", CellValue.str "-45.67",
          CellValue.str ""]] "stmt.csv" =
      Except.ok [{ transaction_date := d, post_date := Option.none,
                   description := "Amazon.com*Shopping",
                   category := categorize_transaction "Amazon.com*Shopping",
                   type := "Sale", amount := -(4567/100), memo := "",
                   source_file := "stmt.csv" }] ∧
    categorize_transaction "Amazon.com*Shopping" = "Household Goods" ∧
    categorize_transaction "Amazon.com*Shopping" ≠ "Shopping" := by
  refine ⟨?_, by decide, by decide⟩
  simp [parse_bank_csv, parseStandardRows, parseStandardRow, normalizeCol, rowGet,
    resolveTransDate, pyIsna, stripCell, pyStr, pyFloat, parseDecimal, parseUnsigned,
    splitDot, digitsVal, trimS, lowerS, lowerC, isWSChar, h, Except.map,
    List.dropWhile, List.foldl, List.findIdx?, List.find?, List.contains]
  norm_num

/-- C6 witness: the round-trip evaluated with a concrete date parser. -/
theorem csv_roundtrip_single_row_witness :
    toDateDemo (CellValue.str "2025-01-15") = some ⟨2025, 1, 15⟩ ∧
    (parse_bank_csv toDateDemo ⟨2000, 1, 1⟩
        ["Transaction Date", "Description", "Category", "Type", "Amount", "Memo"]
        [[CellValue.str "2025-01-15", CellValue.str "Amazon.com*Shopping",
          CellValue.str "Shopping", CellValue.str "Sale", CellValue.str "-45.67",
          CellValue.str ""]] "stmt.csv" =
      Except.ok [{ transaction_date := ⟨2025, 1, 15⟩, post_date := Option.none,
                   description := "Amazon.com*Shopping",
                   category := categorize_transaction "Amazon.com*Shopping",
                   type := "Sale", amount := -(4567/100), memo := "",
                   source_file := "stmt.csv" }] ∧
    categorize_transaction "Amazon.com*Shopping" = "Household Goods" ∧
    categorize_transaction "Amazon.com*Shopping" ≠ "Shopping") :=
  ⟨by decide,
   csv_roundtrip_single_row toDateDemo ⟨2000, 1, 1⟩ ⟨2025, 1, 15⟩ (by decide)⟩

/-- C7 counterexample: an amount cell holding the string `"($1,234.56)"`
flows through the pipeline as amount 0.0, not as the canonical -1234.56
the claim promises: the extractors parse amounts with plain `float`, which
fails on currency formatting, and the failure is defaulted to 0.0. -/
theorem currency_string_amount_not_normalized :
    parse_bank_csv toDateDemo ⟨2000, 1, 1⟩ ["Description", "Amount"]
        [[CellValue.str "Rent", CellValue.str "($1,234.56)"]] "f.csv" =
      Except.ok [{ transaction_date := ⟨2000, 1, 1⟩, post_date := Option.none,
                   description := "Rent", category := "Bills", type := "Debit",
                   amount := 0, memo := "", source_file := "f.csv" }] ∧
    (0 : ℚ) ≠ -(123456/100) := by
  constructor
  · rfl
  · norm_num

/-- C7 amended: the helper `clean_amount_string` does convert currency
symbols, thousands commas and parenthesized negatives to the canonical
signed amount, but no extractor invokes it: the pipeline parses amounts
with plain `float` conversion, so such a string reaches the emitted
transaction as the 0.0 default instead of its converted value. -/
theorem clean_amount_string_normalizes_but_unused :
    clean_amount_string (CellValue.str "$1,234.56") = 123456/100 ∧
    clean_amount_string (CellValue.str "($1,234.56)") = -(123456/100) ∧
    (∃ t, parseStandardRow toDateDemo ⟨2000, 1, 1⟩ ["description", "amount"] "f.csv"
        [CellValue.str "Rent", CellValue.str "($1,234.56)"] = Except.ok (some t) ∧
      t.amount = 0) := by
  refine ⟨?_, ?_, ⟨_, rfl, rfl⟩⟩
  · simp [clean_amount_string, pyIsna, pyStr, removeChar, trimS, startsWithS, endsWithS,
      isPrefixL, parseDecimal, parseUnsigned, splitDot, digitsVal, isWSChar,
      List.dropWhile, List.foldl, List.filter, List.dropLast]
    norm_num
  · simp [clean_amount_string, pyIsna, pyStr, removeChar, trimS, startsWithS, endsWithS,
      isPrefixL, parseDecimal, parseUnsigned, splitDot, digitsVal, isWSChar,
      List.dropWhile, List.foldl, List.filter, List.dropLast]
    norm_num
